import Mathlib

/-!
# Shallow embedding of `src/sentry/tsdb/snuba.py` (SnubaTSDB)

This file embeds the query-translation and result-reshaping engine of
`SnubaTSDB` into Lean 4 and proves properties of the embedded code.

Modelling conventions:
* Python values occurring in requests/rows are embedded as the inductive
  `Val` (ints, strings, lists, `None`).
* Python runtime exceptions are embedded as the `PyErr` type; fallible code
  returns `Except PyErr _`.
* Python dicts are embedded as association lists in insertion order with
  unique keys maintained by the insertion operation, matching CPython's
  insertion-ordered dict semantics.
* External collaborators (the Django ORM lookups `Environment.objects`,
  `GroupHash.objects`, the HTTP transport `requests.post`, and the
  timestamp parser `parse_datetime`/`to_timestamp`) are passed as explicit
  function parameters, per the collaborator contracts of the spec (§6).
* Python `set` iteration order is unspecified; wherever the code converts a
  set to a list (`list(set...)`), the embedding fixes a canonical order
  (dedup in first-occurrence order).  Theorems about those values are
  stated up to set membership.
-/

/-- A Python value as it occurs in request payloads and response rows:
integers, strings, lists, or `None`. -/
inductive Val where
  | vint : Int → Val
  | vstr : String → Val
  | vlist : List Val → Val
  | vnull : Val
deriving Repr

open Val

mutual

/-- Decidable equality for `Val` (written by hand because the automatic
derivation does not support the nested `List Val` occurrence). -/
def Val.decEq : (a b : Val) → Decidable (a = b)
  | vint a, vint b =>
    if h : a = b then isTrue (by rw [h]) else isFalse (fun hh => by cases hh; exact h rfl)
  | vstr a, vstr b =>
    if h : a = b then isTrue (by rw [h]) else isFalse (fun hh => by cases hh; exact h rfl)
  | vlist a, vlist b =>
    match Val.decEqList a b with
    | isTrue h => isTrue (by rw [h])
    | isFalse h => isFalse (fun hh => by cases hh; exact h rfl)
  | vnull, vnull => isTrue rfl
  | vint _, vstr _ => isFalse (fun h => Val.noConfusion h)
  | vint _, vlist _ => isFalse (fun h => Val.noConfusion h)
  | vint _, vnull => isFalse (fun h => Val.noConfusion h)
  | vstr _, vint _ => isFalse (fun h => Val.noConfusion h)
  | vstr _, vlist _ => isFalse (fun h => Val.noConfusion h)
  | vstr _, vnull => isFalse (fun h => Val.noConfusion h)
  | vlist _, vint _ => isFalse (fun h => Val.noConfusion h)
  | vlist _, vstr _ => isFalse (fun h => Val.noConfusion h)
  | vlist _, vnull => isFalse (fun h => Val.noConfusion h)
  | vnull, vint _ => isFalse (fun h => Val.noConfusion h)
  | vnull, vstr _ => isFalse (fun h => Val.noConfusion h)
  | vnull, vlist _ => isFalse (fun h => Val.noConfusion h)

/-- Decidable equality for lists of `Val`. -/
def Val.decEqList : (a b : List Val) → Decidable (a = b)
  | [], [] => isTrue rfl
  | [], _ :: _ => isFalse (fun h => List.noConfusion h)
  | _ :: _, [] => isFalse (fun h => List.noConfusion h)
  | x :: xs, y :: ys =>
    match Val.decEq x y, Val.decEqList xs ys with
    | isTrue h1, isTrue h2 => isTrue (by rw [h1, h2])
    | isFalse h1, _ => isFalse (fun hh => by cases hh; exact h1 rfl)
    | _, isFalse h2 => isFalse (fun hh => by cases hh; exact h2 rfl)

end

instance : DecidableEq Val := Val.decEq

/-- Decidable equality for `Except`, used to evaluate the embedded code on
concrete inputs. -/
def exceptDecEq {ε α : Type} [DecidableEq ε] [DecidableEq α] :
    (a b : Except ε α) → Decidable (a = b)
  | .ok a, .ok b =>
    if h : a = b then isTrue (by rw [h]) else isFalse (fun hh => by cases hh; exact h rfl)
  | .error a, .error b =>
    if h : a = b then isTrue (by rw [h]) else isFalse (fun hh => by cases hh; exact h rfl)
  | .ok _, .error _ => isFalse (fun h => Except.noConfusion h)
  | .error _, .ok _ => isFalse (fun h => Except.noConfusion h)

instance {ε α : Type} [DecidableEq ε] [DecidableEq α] : DecidableEq (Except ε α) :=
  exceptDecEq

/-- Python runtime exceptions raised by the embedded code. -/
inductive PyErr where
  | typeError
  | keyError
  | assertionError
  | attributeError
  | doesNotExist
deriving DecidableEq, Repr

/-- A response row / dict: association list from column name to value,
in insertion order. -/
def Row := List (String × Val)
deriving DecidableEq, Repr

/-- Python `d[k]` read access, as an `Option` (the caller decides whether a
missing key is a `KeyError`). -/
def Row.lookup (r : Row) (k : String) : Option Val :=
  (List.find? (fun p => p.1 = k) r).map Prod.snd

/-- Python `d[k] = v` assignment: replaces the value at an existing key
(keeping its position) or appends a new entry, per dict semantics. -/
def Row.set (r : Row) (k : String) (v : Val) : Row :=
  match r with
  | [] => [(k, v)]
  | (k2, v2) :: t => if k2 = k then (k, v) :: t else (k2, v2) :: Row.set t k v


/-! ## Model Registry (`TSDBModel`, `model_columns`) -/

/-- The TSDB model identifiers relevant to `SnubaTSDB.model_columns`.
The enumeration `TSDBModel` lives in `sentry/tsdb/base.py`, outside the
provided sources; it contains the eight members handled by the registry
plus further members that the registry does not handle.  Modelled from the
spec: `internal` stands for any `TSDBModel` member absent from the
registry ("Unknown model → absent"). -/
inductive TSDBModel where
  | project
  | group
  | release
  | users_affected_by_group
  | users_affected_by_project
  | frequent_environments_by_group
  | frequent_releases_by_group
  | frequent_issues_by_project
  | internal
deriving DecidableEq, Repr

/-- `SnubaTSDB.model_columns`: translates TSDB models into the
`(groupby_column, aggregateby_column)` pair used for querying snuba;
`.get(model, None)` on an unknown model yields `none`. -/
def model_columns : TSDBModel → Option (String × Option String)
  | .project => some ("project_id", none)
  | .group => some ("issue", none)
  | .release => some ("release", none)
  | .users_affected_by_group => some ("issue", some "user_id")
  | .users_affected_by_project => some ("project_id", some "user_id")
  | .frequent_environments_by_group => some ("issue", some "environment")
  | .frequent_releases_by_group => some ("issue", some "release")
  | .frequent_issues_by_project => some ("project_id", some "issue")
  | .internal => none

/-! ## Key Normalizer (`normalize_keys`) -/

/-- The shapes of caller-supplied key sets accepted by `normalize_keys`:
a plain list, a two-level `{level1_key: [level2_key, ...]}` dict, or
anything else. -/
inductive Keys where
  | list : List Val → Keys
  | dict : List (Val × List Val) → Keys
  | other : Keys
deriving DecidableEq, Repr

/-- `SnubaTSDB.normalize_keys`.  For a dict input the code computes
`list(set.union(*(set(v) for v in items.values())))`; calling the unbound
`set.union` with zero arguments (empty dict) raises a `TypeError`.  The
union is a Python set whose iteration order is unspecified; the embedding
fixes dedup-in-first-occurrence order as the canonical order. -/
def normalize_keys : Keys → Except PyErr (Option (List Val) × Option (List Val))
  | .list l => .ok (some l, none)
  | .dict [] => .error .typeError
  | .dict (e :: es) =>
      .ok (some ((e :: es).map Prod.fst),
           some (((e :: es).map Prod.snd).flatten.dedup))
  | .other => .ok (none, none)

/-! ## Dependency Resolver (`get_project_ids` and partition scope) -/

/-- Module-level `get_project_ids(model, model_ids)`: returns `model_ids`
when the column is `"project_id"`, else `[]` (the source's TODO stub never
resolves foreign keys).  The `None` dict key produced by
`dict(zip(model_columns, ...))` appears here as `none`. -/
def get_project_ids (model : Option String) (model_ids : Option (List Val)) :
    Option (List Val) :=
  if model = some "project_id" then model_ids else some []

/-- Python `set.intersection(*sets)` followed by `list(...)`, as used in
`get_data`.  With zero sets the unbound-method call raises a `TypeError`.
The result is a Python set; the embedding returns the members of the first
set (deduplicated, first-occurrence order) that belong to every other
set, which is set-equal to the intersection. -/
def set_intersection : List (List Val) → Except PyErr (List Val)
  | [] => .error .typeError
  | s :: rest =>
      .ok (rest.foldl (fun acc t => acc.filter (fun x => decide (x ∈ t))) s.dedup)

/-! ## External collaborators (spec §6) -/

/-- Module-level `get_environment_name(environment_id)`:
`Environment.objects.get(pk=...)` is the ORM collaborator, embedded as a
function `Nat → Option String`; a missing id raises `DoesNotExist`. -/
def get_environment_name (envResolver : Nat → Option String)
    (environment_id : Nat) : Except PyErr String :=
  match envResolver environment_id with
  | some n => .ok n
  | none => .error .doesNotExist


/-! ## Query Builder (first half of `get_data`, up to the request payload) -/

/-- A filter condition `(column, operator, value)`. -/
abbrev Cond := String × String × Val

/-- The snuba request payload assembled by `get_data`.  The Python code
builds a dict and drops every entry whose value is `None`
(`{k: v ... if v is not None}`); fields that can be dropped are `Option`s
here, with `none` meaning the key is absent from the payload.
`conditions`, `groupby`, `project` and `aggregation` are never `None` in
the code, so they are plain fields. -/
structure SnubaRequest where
  from_date : String
  to_date : String
  conditions : List Cond
  groupby : List String
  project : List Val
  aggregation : String
  aggregateby : Option String
  granularity : Option Nat
  issues : Option (List (Val × List String))
deriving DecidableEq, Repr

/-- Insert into the insertion-ordered dict
`keys_map = dict(zip(model_columns, normalize_keys(keys)))`: an existing
key keeps its position and gets the new value, a new key is appended. -/
def km_insert (m : List (Option String × Option (List Val)))
    (k : Option String) (v : Option (List Val)) :
    List (Option String × Option (List Val)) :=
  match m with
  | [] => [(k, v)]
  | (k2, v2) :: t => if k2 = k then (k, v) :: t else (k2, v2) :: km_insert t k v

/-- The `datetime.isoformat()` rendering of a timestamp.  Timestamps are
embedded as epoch seconds (`Nat`); no claim inspects the rendered string,
so a canonical decimal rendering is used. -/
def isoformat (t : Nat) : String := toString t

/-- The first half of `SnubaTSDB.get_data` (lines 61–111): model lookup,
key normalization, filter conditions, group-by list with the
count-aggregation rewrite, environment condition, partition scope,
issue-map attachment, and assembly of the request payload.
`.ok none` is the `return None` for an unsupported model; errors are the
Python exceptions raised along the way.  `envResolver` and
`projectIssues` are the external ORM collaborators
(`Environment.objects`, `get_project_issues`); `end_date.isoformat()` on
an absent end raises an `AttributeError`. -/
def build_request (envResolver : Nat → Option String)
    (projectIssues : List Val → List (Val × List String))
    (model : TSDBModel) (keys : Keys) (start : Nat) (end_date : Option Nat)
    (rollup : Option Nat) (environment_id : Option Nat)
    (aggregation : String) (group_on_model : Bool) (group_on_time : Bool) :
    Except PyErr (Option SnubaRequest) :=
  match model_columns model with
  | none => .ok none
  | some (model_group, model_aggregate0) =>
    match normalize_keys keys with
    | .error e => .error e
    | .ok (top_keys, second_keys) =>
      let keys_map := km_insert (km_insert [] (some model_group) top_keys)
                        model_aggregate0 second_keys
      let conditions0 : List Cond := keys_map.filterMap (fun p =>
        match p with
        | (some keycol, some ks) => some (keycol, "IN", vlist ks)
        | _ => none)
      let groupby0 : List String :=
        (if group_on_model then [model_group] else []) ++
        (if group_on_time then ["time"] else [])
      -- count special case: COUNT(model_aggregate) → COUNT() GROUP BY model_aggregate
      let groupby : List String :=
        match model_aggregate0 with
        | some a => if aggregation = "count" then groupby0 ++ [a] else groupby0
        | none => groupby0
      let model_aggregate : Option String :=
        if aggregation = "count" then none else model_aggregate0
      match (match environment_id with
             | none => Except.ok conditions0
             | some eid =>
               match get_environment_name envResolver eid with
               | .ok name => .ok (conditions0 ++ [("environment", "=", vstr name)])
               | .error e => .error e) with
      | .error e => .error e
      | .ok conditions =>
        let pid_lists := keys_map.map (fun p => get_project_ids p.1 p.2)
        let contributed := (pid_lists.filterMap id).filter (fun l => !l.isEmpty)
        match set_intersection contributed with
        | .error e => .error e
        | .ok project_ids =>
          let references_issues : Bool :=
            groupby.contains "issue" || model_aggregate = some "issue" ||
            (conditions.map (fun c => c.1)).contains "issue"
          let issues := if references_issues then some (projectIssues project_ids)
                        else none
          match end_date with
          | none => .error .attributeError
          | some e =>
            .ok (some { from_date := isoformat start
                        to_date := isoformat e
                        conditions := conditions
                        groupby := groupby
                        project := project_ids
                        aggregation := aggregation
                        aggregateby := model_aggregate
                        granularity := rollup
                        issues := issues })


/-! ## Response Validator & Scrubber (`get_data` lines 113–124) -/

/-- The decoded JSON body of a snuba response: `meta` is a list of column
descriptors (dicts with a `name` entry), `data` a list of rows. -/
structure SnubaResponse where
  meta : List Row
  data : List Row
deriving Repr

/-- `assert all(c['name'] in expected_cols for c in response['meta'])`:
short-circuits at the first offending descriptor; a descriptor without a
`name` key raises `KeyError`, a name outside `expected_cols` raises
`AssertionError`. -/
def check_meta (meta : List Row) (expected_cols : List String) : Except PyErr Unit :=
  match meta with
  | [] => .ok ()
  | c :: rest =>
    match Row.lookup c "name" with
    | none => .error .keyError
    | some v =>
      if expected_cols.any (fun s => v = vstr s) then check_meta rest expected_cols
      else .error .assertionError

/-- The per-row scrub of `get_data`: a `time` entry is replaced by
`int(to_timestamp(parse_datetime(d['time'])))` — the composite
parse-to-epoch-seconds is the collaborator `parse`, and a non-string
`time` value raises a `TypeError` from `parse_datetime`; then a `None`
aggregate is replaced by `0`, and a row without an `aggregate` key raises
`KeyError` on the `d['aggregate']` read. -/
def scrub_row (parse : String → Int) (d : Row) : Except PyErr Row :=
  match ((match Row.lookup d "time" with
          | none => Except.ok d
          | some (vstr s) => Except.ok (Row.set d "time" (vint (parse s)))
          | some _ => Except.error PyErr.typeError) : Except PyErr Row) with
  | .error e => .error e
  | .ok d2 =>
    match Row.lookup d2 "aggregate" with
    | none => .error .keyError
    | some vnull => .ok (Row.set d2 "aggregate" (vint 0))
    | some _ => .ok d2

/-- The scrub loop over the rows, aborting at the first failing row.
(Python mutates rows in place and raises mid-loop; the partially mutated
earlier rows are unobservable because the operation aborts.) -/
def scrub_rows (parse : String → Int) : List Row → Except PyErr (List Row)
  | [] => .ok []
  | d :: t =>
    match scrub_row parse d with
    | .error e => .error e
    | .ok d2 =>
      match scrub_rows parse t with
      | .error e => .error e
      | .ok t2 => .ok (d2 :: t2)

/-- `expected_cols = groupby + ['aggregate']`, the meta assertion, then the
row scrub loop, in source order. -/
def validate_and_scrub (parse : String → Int) (response : SnubaResponse)
    (groupby : List String) : Except PyErr (List Row) :=
  match check_meta response.meta (groupby ++ ["aggregate"]) with
  | .error e => .error e
  | .ok _ => scrub_rows parse response.data

/-! ## Nesting Engine (`nest_groups`) -/

/-- The nested result built by `nest_groups`: a leaf aggregate (possibly
Python `None` when there were no rows) or a mapping, in first-occurrence
order, from a group column's values to deeper results. -/
inductive Nested where
  | scalar : Option Val → Nested
  | table : List (Val × Nested) → Nested
deriving Repr

/-- `inter.setdefault(d[g], []).append(d)`: append a row to its bucket,
creating the bucket at the end on first occurrence. -/
def bucket_insert (acc : List (Val × List Row)) (k : Val) (d : Row) :
    List (Val × List Row) :=
  match acc with
  | [] => [(k, [d])]
  | (k2, rs) :: t =>
    if k2 = k then (k2, rs ++ [d]) :: t else (k2, rs) :: bucket_insert t k d

/-- The partition loop of `nest_groups`: group the rows by the value of
column `g` in first-occurrence order; a row without the column raises
`KeyError` on `d[g]`. -/
def partition_rows (data : List Row) (g : String) :
    Except PyErr (List (Val × List Row)) :=
  data.foldlM (fun acc d =>
    match Row.lookup d g with
    | some v => .ok (bucket_insert acc v d)
    | none => .error .keyError) []

/-- Maps a nesting function over the buckets (the dict comprehension
`{k: self.nest_groups(v, rest) for k, v in six.iteritems(inter)}`). -/
def nest_buckets (f : List Row → Except PyErr Nested) :
    List (Val × List Row) → Except PyErr (List (Val × Nested))
  | [] => .ok []
  | (k, rows) :: t =>
    match f rows with
    | .error e => .error e
    | .ok n =>
      match nest_buckets f t with
      | .error e => .error e
      | .ok rest => .ok ((k, n) :: rest)

/-- `SnubaTSDB.nest_groups` with its recursion on the group list made
structural.  With no groups left it returns `data[0]['aggregate']` if any
row exists (KeyError when the first row has no aggregate), else Python
`None`. -/
def nest_groups_on : List String → List Row → Except PyErr Nested
  | [], data =>
    match data with
    | [] => .ok (.scalar none)
    | d :: _ =>
      match Row.lookup d "aggregate" with
      | some v => .ok (.scalar (some v))
      | none => .error .keyError
  | g :: rest, data =>
    match partition_rows data g with
    | .error e => .error e
    | .ok buckets =>
      match nest_buckets (nest_groups_on rest) buckets with
      | .error e => .error e
      | .ok entries => .ok (.table entries)

/-- `SnubaTSDB.nest_groups(data, groups)` in the source's argument order. -/
def nest_groups (data : List Row) (groups : List String) : Except PyErr Nested :=
  nest_groups_on groups data

/-- Second half of `SnubaTSDB.get_data`: perform the round trip (the
transport is the collaborator `backend`), validate and scrub the decoded
response, and nest the rows; `.ok none` is the `return None` of an
unsupported model. -/
def get_data (envResolver : Nat → Option String)
    (projectIssues : List Val → List (Val × List String))
    (parse : String → Int) (backend : SnubaRequest → SnubaResponse)
    (model : TSDBModel) (keys : Keys) (start : Nat) (end_date : Option Nat)
    (rollup : Option Nat) (environment_id : Option Nat)
    (aggregation : String) (group_on_model : Bool) (group_on_time : Bool) :
    Except PyErr (Option Nested) :=
  match build_request envResolver projectIssues model keys start end_date rollup
          environment_id aggregation group_on_model group_on_time with
  | .error e => .error e
  | .ok none => .ok none
  | .ok (some req) =>
    let response := backend req
    match validate_and_scrub parse response req.groupby with
    | .error e => .error e
    | .ok rows =>
      match nest_groups rows req.groupby with
      | .error e => .error e
      | .ok n => .ok (some n)

/-! ## Concrete collaborators used to evaluate the code on closed inputs -/

/-- An environment resolver that knows only id 7 → `"production"`. -/
def env7 : Nat → Option String := fun i => if i = 7 then some "production" else none

/-- An environment resolver with no environments. -/
def env_empty : Nat → Option String := fun _ => none

/-- An issue resolver with no group hashes. -/
def issues_empty : List Val → List (Val × List String) := fun _ => []

/-- A timestamp parser mapping every string to epoch `0`. -/
def parse_zero : String → Int := fun _ => 0

/-- A backend returning an empty response. -/
def backend_empty : SnubaRequest → SnubaResponse := fun _ => ⟨[], []⟩

/-- A backend whose single row carries the given aggregate value for
project 1, with a matching `meta`. -/
def backend_one (agg : Val) : SnubaRequest → SnubaResponse := fun _ =>
  ⟨[[("name", vstr "project_id")], [("name", vstr "aggregate")]],
   [[("project_id", vint 1), ("aggregate", agg)]]⟩

/-- The request built for `users_affected_by_project` (aggregate column
`user_id`) with `count` aggregation, keys `[1]`, time range `[0, 10)`. -/
def req_count_example : SnubaRequest :=
  { from_date := "0"
    to_date := "10"
    conditions := [("project_id", "IN", vlist [vint 1])]
    groupby := ["project_id", "user_id"]
    project := [vint 1]
    aggregation := "count"
    aggregateby := none
    granularity := none
    issues := none }

/-- The request built for `project` with `environment_id = 7` resolving to
`"production"`, keys `[1]`, time range `[0, 10)`. -/
def req_env_example : SnubaRequest :=
  { from_date := "0"
    to_date := "10"
    conditions := [("project_id", "IN", vlist [vint 1]),
                   ("environment", "=", vstr "production")]
    groupby := ["project_id"]
    project := [vint 1]
    aggregation := "count"
    aggregateby := none
    granularity := none
    issues := none }

/-! ## Operation Adapters -/

/-- `for k in result:` / `{... for k in result}` over the value returned
by `get_data`: iterating `None` raises a `TypeError`; a top-level table
yields its entries.  A scalar at the top level would mean the adapter ran
with no group-by columns, which never happens for the adapters that
iterate (they all pass `group_on_model=True` and every registry model has
a group column); iterating such a non-dict value is embedded as a
`TypeError`. -/
def as_table : Option Nested → Except PyErr (List (Val × Nested))
  | none => .error .typeError
  | some (.table es) => .ok es
  | some (.scalar _) => .error .typeError

/-- Python `sorted` over the `(key, value)` pairs of a nested level.  The
only sorted level is the `time` level, whose keys are all integers after
scrubbing; non-integer keys are embedded as a `TypeError` (Python's
mixed-type comparison).  Keys at one nesting level are pairwise distinct
by construction of `nest_groups`, so the tuple comparison never reaches
the second components; a stable insertion sort on the integer key is
therefore faithful. -/
def int_key : Val → Int
  | vint n => n
  | _ => 0

/-- Insert a pair into a list sorted ascending by integer key. -/
def sorted_insert {β : Type} (p : Val × β) : List (Val × β) → List (Val × β)
  | [] => [p]
  | q :: t =>
    if int_key p.1 ≤ int_key q.1 then p :: q :: t else q :: sorted_insert p t

/-- Insertion sort ascending by integer key. -/
def sorted_by_key {β : Type} : List (Val × β) → List (Val × β)
  | [] => []
  | p :: t => sorted_insert p (sorted_by_key t)

/-- `sorted(pairs)` where every key must be an integer (see `int_key`). -/
def pysorted {β : Type} (l : List (Val × β)) : Except PyErr (List (Val × β)) :=
  if l.all (fun p => match p.1 with | vint _ => true | _ => false) then
    .ok (sorted_by_key l)
  else .error .typeError

/-- `result[k].items()`: a scalar (int, string, list or `None`) has no
`.items` attribute. -/
def items_of : Nested → Except PyErr (List (Val × Nested))
  | .table es => .ok es
  | .scalar _ => .error .attributeError

/-- `SnubaTSDB.get_range`: count aggregation grouped on model and time,
then each group's `{timestamp: count}` mapping becomes a
timestamp-sorted list of pairs. -/
def get_range (envResolver : Nat → Option String)
    (projectIssues : List Val → List (Val × List String))
    (parse : String → Int) (backend : SnubaRequest → SnubaResponse)
    (model : TSDBModel) (keys : Keys) (start : Nat) (end_date : Option Nat)
    (rollup : Option Nat) (environment_id : Option Nat) :
    Except PyErr (List (Val × List (Val × Nested))) :=
  match get_data envResolver projectIssues parse backend model keys start
          end_date rollup environment_id "count" true true with
  | .error e => .error e
  | .ok r =>
    match as_table r with
    | .error e => .error e
    | .ok es => es.mapM (fun p =>
        match items_of p.2 with
        | .error e => .error e
        | .ok inner =>
          match pysorted inner with
          | .error e => .error e
          | .ok s => .ok (p.1, s))

/-- `SnubaTSDB.get_distinct_counts_series`: uniq aggregation grouped on
model and time, same reshape as `get_range`. -/
def get_distinct_counts_series (envResolver : Nat → Option String)
    (projectIssues : List Val → List (Val × List String))
    (parse : String → Int) (backend : SnubaRequest → SnubaResponse)
    (model : TSDBModel) (keys : Keys) (start : Nat) (end_date : Option Nat)
    (rollup : Option Nat) (environment_id : Option Nat) :
    Except PyErr (List (Val × List (Val × Nested))) :=
  match get_data envResolver projectIssues parse backend model keys start
          end_date rollup environment_id "uniq" true true with
  | .error e => .error e
  | .ok r =>
    match as_table r with
    | .error e => .error e
    | .ok es => es.mapM (fun p =>
        match items_of p.2 with
        | .error e => .error e
        | .ok inner =>
          match pysorted inner with
          | .error e => .error e
          | .ok s => .ok (p.1, s))

/-- `SnubaTSDB.get_distinct_counts_totals`: returns `get_data`'s nested
result unchanged. -/
def get_distinct_counts_totals (envResolver : Nat → Option String)
    (projectIssues : List Val → List (Val × List String))
    (parse : String → Int) (backend : SnubaRequest → SnubaResponse)
    (model : TSDBModel) (keys : Keys) (start : Nat) (end_date : Option Nat)
    (rollup : Option Nat) (environment_id : Option Nat) :
    Except PyErr (Option Nested) :=
  get_data envResolver projectIssues parse backend model keys start end_date
    rollup environment_id "uniq" true false

/-- `SnubaTSDB.get_distinct_counts_union`: uniq aggregation with no model
grouping, result returned unchanged. -/
def get_distinct_counts_union (envResolver : Nat → Option String)
    (projectIssues : List Val → List (Val × List String))
    (parse : String → Int) (backend : SnubaRequest → SnubaResponse)
    (model : TSDBModel) (keys : Keys) (start : Nat) (end_date : Option Nat)
    (rollup : Option Nat) (environment_id : Option Nat) :
    Except PyErr (Option Nested) :=
  get_data envResolver projectIssues parse backend model keys start end_date
    rollup environment_id "uniq" false false

/-- The top-K scoring of `get_most_frequent`:
`list(reversed([(v, float(i + 1)) for i, v in enumerate(reversed(l))]))`.
Scores are `float(i + 1)` in Python — exact small integers, embedded as
`Nat`. -/
def topk_scores (vs : List Val) : List (Val × Nat) :=
  (vs.reverse.enum.map (fun p => (p.2, p.1 + 1))).reverse

/-- `SnubaTSDB.get_most_frequent`: `topK(limit)` aggregation grouped on
model; each group's ranked value list becomes a scored list via
`topk_scores`.  A group value that is not a list cannot be `reversed` /
enumerated as the code expects; only list aggregates are produced by a
topK query, and other shapes are embedded as a `TypeError`. -/
def get_most_frequent (envResolver : Nat → Option String)
    (projectIssues : List Val → List (Val × List String))
    (parse : String → Int) (backend : SnubaRequest → SnubaResponse)
    (model : TSDBModel) (keys : Keys) (start : Nat) (end_date : Option Nat)
    (rollup : Option Nat) (environment_id : Option Nat) (limit : Nat) :
    Except PyErr (List (Val × List (Val × Nat))) :=
  match get_data envResolver projectIssues parse backend model keys start
          end_date rollup environment_id
          ("topK(" ++ toString limit ++ ")") true false with
  | .error e => .error e
  | .ok r =>
    match as_table r with
    | .error e => .error e
    | .ok es => es.mapM (fun p =>
        match p.2 with
        | .scalar (some (vlist vs)) => .ok (p.1, topk_scores vs)
        | _ => .error .typeError)

/-- Dict insert for the `{v: float(i + 1) for ...}` score dict of
`get_most_frequent_series` (overwrite in place, else append). -/
def score_insert (m : List (Val × Nat)) (k : Val) (s : Nat) : List (Val × Nat) :=
  match m with
  | [] => [(k, s)]
  | (k2, s2) :: t => if k2 = k then (k, s) :: t else (k2, s2) :: score_insert t k s

/-- The per-timestamp score dict of `get_most_frequent_series`:
`{v: float(i + 1) for i, v in enumerate(reversed(topk))}`. -/
def topk_score_map (vs : List Val) : List (Val × Nat) :=
  vs.reverse.enum.foldl (fun acc p => score_insert acc p.2 (p.1 + 1)) []

/-- `SnubaTSDB.get_most_frequent_series`: `topK(limit)` aggregation
grouped on model and time; each group becomes a timestamp-sorted list of
`(timestamp, score_dict)` pairs. -/
def get_most_frequent_series (envResolver : Nat → Option String)
    (projectIssues : List Val → List (Val × List String))
    (parse : String → Int) (backend : SnubaRequest → SnubaResponse)
    (model : TSDBModel) (keys : Keys) (start : Nat) (end_date : Option Nat)
    (rollup : Option Nat) (environment_id : Option Nat) (limit : Nat) :
    Except PyErr (List (Val × List (Val × List (Val × Nat)))) :=
  match get_data envResolver projectIssues parse backend model keys start
          end_date rollup environment_id
          ("topK(" ++ toString limit ++ ")") true true with
  | .error e => .error e
  | .ok r =>
    match as_table r with
    | .error e => .error e
    | .ok es => es.mapM (fun p =>
        match items_of p.2 with
        | .error e => .error e
        | .ok inner =>
          match inner.mapM (fun q =>
            match q.2 with
            | .scalar (some (vlist vs)) => Except.ok (q.1, topk_score_map vs)
            | _ => Except.error PyErr.typeError) with
          | .error e => .error e
          | .ok scored =>
            match pysorted scored with
            | .error e => .error e
            | .ok s => .ok (p.1, s))

/-- `SnubaTSDB.get_frequency_series`: count aggregation grouped on model
and time; each group's mapping becomes its `.items()` list with no
sorting applied. -/
def get_frequency_series (envResolver : Nat → Option String)
    (projectIssues : List Val → List (Val × List String))
    (parse : String → Int) (backend : SnubaRequest → SnubaResponse)
    (model : TSDBModel) (items : Keys) (start : Nat) (end_date : Option Nat)
    (rollup : Option Nat) (environment_id : Option Nat) :
    Except PyErr (List (Val × List (Val × Nested))) :=
  match get_data envResolver projectIssues parse backend model items start
          end_date rollup environment_id "count" true true with
  | .error e => .error e
  | .ok r =>
    match as_table r with
    | .error e => .error e
    | .ok es => es.mapM (fun p =>
        match items_of p.2 with
        | .error e => .error e
        | .ok inner => .ok (p.1, inner))

/-- `SnubaTSDB.get_frequency_totals`: returns `get_data`'s nested result
unchanged. -/
def get_frequency_totals (envResolver : Nat → Option String)
    (projectIssues : List Val → List (Val × List String))
    (parse : String → Int) (backend : SnubaRequest → SnubaResponse)
    (model : TSDBModel) (items : Keys) (start : Nat) (end_date : Option Nat)
    (rollup : Option Nat) (environment_id : Option Nat) :
    Except PyErr (Option Nested) :=
  get_data envResolver projectIssues parse backend model items start end_date
    rollup environment_id "count" true false

/-! ## Helper lemmas -/

/-- After `Row.set r k v`, reading `k` yields `v`. -/
theorem Row.lookup_set_self (r : Row) (k : String) (v : Val) :
    Row.lookup (Row.set r k v) k = some v := by
  induction r with
  | nil => simp [Row.set, Row.lookup, List.find?]
  | cons p t ih =>
    obtain ⟨k2, v2⟩ := p
    by_cases h : k2 = k
    · simp [Row.set, h, Row.lookup, List.find?]
    · simp only [Row.set, if_neg h]
      simpa [Row.lookup, List.find?, h] using ih

/-- `Row.set` at a different key does not change a read. -/
theorem Row.lookup_set_other (r : Row) (k k2 : String) (v : Val) (h : k ≠ k2) :
    Row.lookup (Row.set r k2 v) k = Row.lookup r k := by
  have h2 : ¬ (k2 = k) := fun hh => h hh.symm
  induction r with
  | nil => simp [Row.set, Row.lookup, List.find?, h2]
  | cons p t ih =>
    obtain ⟨k3, v3⟩ := p
    by_cases h3 : k3 = k2
    · subst h3
      simp [Row.set, Row.lookup, List.find?, h2]
    · by_cases h4 : k3 = k
      · subst h4
        simp [Row.set, if_neg h, Row.lookup, List.find?]
      · simp only [Row.set, if_neg h3]
        simpa [Row.lookup, List.find?, h4] using ih

/-! ## Claims -/

/-- C1: the claim says every public operation returns an empty/absent
result for a model outside the registry (as the class docstring also
promises).  Evaluating the code at such a model: `get_data` returns
`None`, the totals/union adapters pass it through, but the adapters that
iterate over the result (`get_range`, `get_distinct_counts_series`,
`get_most_frequent`, `get_most_frequent_series`, `get_frequency_series`)
raise `TypeError` when iterating `None`. -/
theorem unsupported_model_behaviour :
    get_range env_empty issues_empty parse_zero backend_empty .internal
        (Keys.list [vint 1]) 0 (some 10) none none = .error .typeError
  ∧ get_distinct_counts_series env_empty issues_empty parse_zero backend_empty
        .internal (Keys.list [vint 1]) 0 (some 10) none none = .error .typeError
  ∧ get_most_frequent env_empty issues_empty parse_zero backend_empty .internal
        (Keys.list [vint 1]) 0 (some 10) none none 10 = .error .typeError
  ∧ get_most_frequent_series env_empty issues_empty parse_zero backend_empty
        .internal (Keys.list [vint 1]) 0 (some 10) none none 10 = .error .typeError
  ∧ get_frequency_series env_empty issues_empty parse_zero backend_empty .internal
        (Keys.list [vint 1]) 0 (some 10) none none = .error .typeError
  ∧ get_distinct_counts_totals env_empty issues_empty parse_zero backend_empty
        .internal (Keys.list [vint 1]) 0 (some 10) none none = .ok none
  ∧ get_distinct_counts_union env_empty issues_empty parse_zero backend_empty
        .internal (Keys.list [vint 1]) 0 (some 10) none none = .ok none
  ∧ get_frequency_totals env_empty issues_empty parse_zero backend_empty .internal
        (Keys.list [vint 1]) 0 (some 10) none none = .ok none :=
  ⟨rfl, rfl, rfl, rfl, rfl, rfl, rfl, rfl⟩

/-- C3: the claim says that with zero contributing partition-id sets
request building produces an empty partition scope and proceeds.
Evaluating the code: for a model whose group column is not `project_id`
(here `TSDBModel.group`; the `get_project_ids` stub contributes nothing
for other columns), `set.intersection(*[])` raises a `TypeError` instead.
When one column does contribute (a `project_id` model), the partition
scope is that contributed set, the intersection of all (one) non-empty
implied sets. -/
theorem partition_scope_eval :
    build_request env_empty issues_empty .group (Keys.list [vint 101, vint 102]) 0
        (some 10) none none "count" true true = .error .typeError
  ∧ (build_request env_empty issues_empty .project (Keys.list [vint 1, vint 2]) 0
        (some 10) none none "count" true true).map
        (Option.map fun r => r.project) = .ok (some [vint 1, vint 2]) :=
  ⟨rfl, rfl⟩

/-- C4 (counterexample): for a two-level mapping with zero entries the
claim says `second_keys` is the empty set; the code's
`set.union(*(set(v) for v in items.values()))` with zero sets raises a
`TypeError` instead. -/
theorem normalize_keys_empty_mapping_counterexample :
    normalize_keys (Keys.dict []) = .error .typeError := rfl

/-- C4 (amended): for every two-level mapping with at least one entry,
`normalize_keys` returns the mapping's keys as `top_keys` and the exact
duplicate-free union of all value sets as `second_keys`; for a mapping
with zero entries it raises a `TypeError`. -/
theorem normalize_keys_union (e : Val × List Val) (es : List (Val × List Val)) :
    ∃ u : List Val,
      normalize_keys (Keys.dict (e :: es)) =
        .ok (some ((e :: es).map Prod.fst), some u)
      ∧ u.Nodup
      ∧ ∀ x : Val, x ∈ u ↔ ∃ p ∈ e :: es, x ∈ p.2 := by
  refine ⟨((e :: es).map Prod.snd).flatten.dedup, rfl, List.nodup_dedup _,
    fun x => ?_⟩
  simp only [List.mem_dedup, List.mem_flatten, List.mem_map, List.mem_cons]
  constructor
  · rintro ⟨l, ⟨p, hp, hl⟩, hx⟩
    exact ⟨p, hp, hl ▸ hx⟩
  · rintro ⟨p, hp, hx⟩
    exact ⟨p.2, ⟨p, hp, rfl⟩, hx⟩

/-- C6: the nesting engine's boundary cases: an empty row list with a
non-empty group list nests to an empty mapping; an empty group list
yields the first row's aggregate when rows exist and Python `None` (not
zero) when none do. -/
theorem nest_groups_boundary_cases :
    (∀ (g : String) (rest : List String), nest_groups [] (g :: rest) = .ok (.table []))
  ∧ (∀ (d : Row) (rows : List Row) (v : Val), Row.lookup d "aggregate" = some v →
        nest_groups (d :: rows) [] = .ok (.scalar (some v)))
  ∧ nest_groups [] [] = .ok (.scalar none) := by
  refine ⟨fun g rest => rfl, fun d rows v hv => ?_, rfl⟩
  simp [nest_groups, nest_groups_on, hv]

/-- Witness for the boundary-case theorem at concrete inputs. -/
theorem nest_groups_boundary_cases_witness :
    nest_groups [] ["issue"] = .ok (.table [])
  ∧ nest_groups [[("aggregate", vint 5)]] [] = .ok (.scalar (some (vint 5))) :=
  ⟨nest_groups_boundary_cases.1 "issue" [],
   nest_groups_boundary_cases.2.1 [("aggregate", vint 5)] [] (vint 5) rfl⟩

/-- C7 (counterexample): the claim says an absent aggregate is defaulted
to zero during scrubbing; a response row without an `aggregate` key makes
the scrub raise `KeyError` on the `d['aggregate']` read instead. -/
theorem scrub_missing_aggregate_counterexample :
    validate_and_scrub parse_zero
      ⟨[[("name", vstr "aggregate")]], [[]]⟩ [] = .error .keyError := rfl

/-- C7 (amended): for every row that has an `aggregate` key and whose
`time` entry, if any, is a string, scrubbing succeeds, a `null` aggregate
is defaulted to zero (a non-null one kept), and a `time` entry is replaced
by the integer epoch-seconds value parsed from its string.  A row without
an `aggregate` key raises `KeyError` (see the counterexample). -/
theorem scrub_row_normalizes (parse : String → Int) (d : Row) (a : Val)
    (ha : Row.lookup d "aggregate" = some a)
    (ht : Row.lookup d "time" = none ∨ ∃ s, Row.lookup d "time" = some (vstr s)) :
    ∃ d2, scrub_row parse d = .ok d2
      ∧ Row.lookup d2 "aggregate" = some (if a = vnull then vint 0 else a)
      ∧ ∀ s, Row.lookup d "time" = some (vstr s) →
          Row.lookup d2 "time" = some (vint (parse s)) := by
  have hne : ("aggregate" : String) ≠ "time" := by decide
  have hne2 : ("time" : String) ≠ "aggregate" := by decide
  rcases ht with ht | ⟨s, ht⟩
  · by_cases hn : a = vnull
    · subst hn
      refine ⟨Row.set d "aggregate" (vint 0), ?_, ?_, ?_⟩
      · simp [scrub_row, ht, ha]
      · simp [Row.lookup_set_self]
      · intro s hs
        rw [ht] at hs
        cases hs
    · refine ⟨d, ?_, ?_, ?_⟩
      · cases a <;> simp_all [scrub_row, ht, ha]
      · simp [ha, if_neg hn]
      · intro s hs
        rw [ht] at hs
        cases hs
  · have ha2 : Row.lookup (Row.set d "time" (vint (parse s))) "aggregate" =
        some a := by rw [Row.lookup_set_other _ _ _ _ hne]; exact ha
    by_cases hn : a = vnull
    · subst hn
      refine ⟨Row.set (Row.set d "time" (vint (parse s))) "aggregate" (vint 0),
        ?_, ?_, ?_⟩
      · simp [scrub_row, ht, ha2]
      · simp [Row.lookup_set_self]
      · intro s2 hs2
        rw [ht] at hs2
        cases hs2
        rw [Row.lookup_set_other _ _ _ _ hne2]
        exact Row.lookup_set_self _ _ _
    · refine ⟨Row.set d "time" (vint (parse s)), ?_, ?_, ?_⟩
      · cases a <;> simp_all [scrub_row, ht, ha2]
      · rw [ha2, if_neg hn]
      · intro s2 hs2
        rw [ht] at hs2
        cases hs2
        exact Row.lookup_set_self _ _ _

/-- Witness: scrubbing the row `{time: "2024-01-01T00:00:00Z",
aggregate: null}` with the parse collaborator `parse_zero`. -/
theorem scrub_row_normalizes_witness :
    ∃ d2, scrub_row parse_zero
        [("time", vstr "2024-01-01T00:00:00Z"), ("aggregate", vnull)] = .ok d2
      ∧ Row.lookup d2 "aggregate" =
          some (if (vnull : Val) = vnull then vint 0 else vnull)
      ∧ ∀ s, Row.lookup [("time", vstr "2024-01-01T00:00:00Z"), ("aggregate", vnull)]
            "time" = some (vstr s) →
          Row.lookup d2 "time" = some (vint (parse_zero s)) :=
  scrub_row_normalizes parse_zero _ vnull rfl
    (Or.inr ⟨"2024-01-01T00:00:00Z", rfl⟩)

/-- The row scrub never raises an `AssertionError` (its failures are
`KeyError` and `TypeError`). -/
theorem scrub_row_no_assert (parse : String → Int) (d : Row) :
    scrub_row parse d ≠ .error .assertionError := by
  unfold scrub_row
  split
  · next e heq =>
    split at heq <;> cases heq
    decide
  · next d2 heq => split <;> simp

/-- The scrub loop never raises an `AssertionError`. -/
theorem scrub_rows_no_assert (parse : String → Int) (rows : List Row) :
    scrub_rows parse rows ≠ .error .assertionError := by
  induction rows with
  | nil => simp [scrub_rows]
  | cons d t ih =>
    unfold scrub_rows
    split
    · next e heq =>
      intro hc
      injection hc with h
      subst h
      exact scrub_row_no_assert parse d heq
    · next d2 heq =>
      split
      · next e heq2 =>
        intro hc
        injection hc with h
        subst h
        exact ih heq2
      · simp

/-- The meta assertion fails with `AssertionError` exactly when some
descriptor's name lies outside the expected columns (provided every
descriptor has a `name` key, else the earlier `KeyError` interferes). -/
theorem check_meta_assert_iff (meta : List Row) (cols : List String)
    (hnames : ∀ c ∈ meta, (Row.lookup c "name").isSome) :
    check_meta meta cols = .error .assertionError ↔
      ∃ c ∈ meta, ∃ v, Row.lookup c "name" = some v ∧ ∀ s ∈ cols, v ≠ vstr s := by
  induction meta with
  | nil => simp [check_meta]
  | cons c rest ih =>
    have hc := hnames c (List.mem_cons_self c rest)
    rcases hv : Row.lookup c "name" with _ | v
    · rw [hv] at hc
      cases hc
    · simp only [check_meta, hv]
      by_cases hin : (cols.any fun s => decide (v = vstr s)) = true
      · rw [if_pos hin]
        rw [ih (fun c2 h2 => hnames c2 (List.mem_cons_of_mem _ h2))]
        constructor
        · rintro ⟨c2, h2, hrest⟩
          exact ⟨c2, List.mem_cons_of_mem _ h2, hrest⟩
        · rintro ⟨c2, h2, v2, hv2, hall⟩
          rcases List.mem_cons.mp h2 with rfl | h2
          · rw [hv] at hv2
            injection hv2 with h3
            subst h3
            rcases List.any_eq_true.mp hin with ⟨s, hs, hvs⟩
            exact absurd (of_decide_eq_true hvs) (hall s hs)
          · exact ⟨c2, h2, v2, hv2, hall⟩
      · rw [if_neg hin]
        refine iff_of_true rfl ⟨c, List.mem_cons_self c rest, v, hv, ?_⟩
        intro s hs hvs
        exact hin (List.any_eq_true.mpr ⟨s, hs, decide_eq_true hvs⟩)

/-- C8: response validation aborts with an invariant (assertion) failure
exactly when some returned column descriptor's name is outside
`expected_group_columns ∪ {"aggregate"}`; the validated/scrubbed row list
is then never produced (the whole stage is the failed `Except`).  The
hypothesis rules out descriptors lacking a `name` key, which raise
`KeyError` before the assertion is evaluated. -/
theorem response_validation_assert_iff (parse : String → Int)
    (resp : SnubaResponse) (groupby : List String)
    (hnames : ∀ c ∈ resp.meta, (Row.lookup c "name").isSome) :
    validate_and_scrub parse resp groupby = .error .assertionError ↔
      ∃ c ∈ resp.meta, ∃ v, Row.lookup c "name" = some v ∧
        ∀ s ∈ groupby ++ ["aggregate"], v ≠ vstr s := by
  unfold validate_and_scrub
  rw [← check_meta_assert_iff resp.meta (groupby ++ ["aggregate"]) hnames]
  split
  · next e heq =>
    rw [heq]
    constructor <;> intro h <;> (injection h with h2; rw [h2])
  · next u heq =>
    refine iff_of_false (scrub_rows_no_assert parse resp.data) ?_
    intro hc
    rw [heq] at hc
    cases hc

/-- Witness: a response whose single descriptor is named `bogus` trips the
assertion. -/
theorem response_validation_assert_iff_witness :
    (validate_and_scrub parse_zero ⟨[[("name", vstr "bogus")]], []⟩ [] =
        .error .assertionError ↔
      ∃ c ∈ [[("name", vstr "bogus")]], ∃ v, Row.lookup c "name" = some v ∧
        ∀ s ∈ ([] : List String) ++ ["aggregate"], v ≠ vstr s) :=
  response_validation_assert_iff parse_zero ⟨[[("name", vstr "bogus")]], []⟩ []
    (by decide)

/-- C5: for every model with a non-absent aggregate column, a request
built with plain `count` aggregation carries that column in its group-by
list, and the request's `aggregateby` field is absent (the
`{k: v ... if v is not None}` filter omits it, embedded as `none`). -/
theorem count_rewrite_groupby (envR : Nat → Option String)
    (projIss : List Val → List (Val × List String))
    (model : TSDBModel) (keys : Keys) (start : Nat) (end_date : Option Nat)
    (rollup : Option Nat) (eid : Option Nat) (gm gt : Bool)
    (g : String) (a : String) (req : SnubaRequest)
    (hm : model_columns model = some (g, some a))
    (hb : build_request envR projIss model keys start end_date rollup eid
        "count" gm gt = .ok (some req)) :
    a ∈ req.groupby ∧ req.aggregateby = none := by
  simp only [build_request, hm] at hb
  split at hb
  · cases hb
  · next top second heq =>
    split at hb
    · cases hb
    · next conds heq2 =>
      split at hb
      · cases hb
      · next pids heq3 =>
        split at hb
        · cases hb
        · next ed heq4 =>
          injection hb with hb2
          injection hb2 with hb3
          subst hb3
          constructor
          · simp
          · rfl

/-- Witness: the count rewrite at a concrete model and keys. -/
theorem count_rewrite_groupby_witness :
    "user_id" ∈ req_count_example.groupby ∧ req_count_example.aggregateby = none :=
  count_rewrite_groupby env_empty issues_empty .users_affected_by_project
    (Keys.list [vint 1]) 0 (some 10) none none true false "project_id" "user_id"
    req_count_example rfl rfl

/-- C9: whenever an environment id is supplied and every stage of request
building succeeds, the id is resolved through the environment
collaborator and the equality condition `("environment", "=", name)` is
among the request's conditions — for every model and aggregation. -/
theorem environment_condition_added (envR : Nat → Option String)
    (projIss : List Val → List (Val × List String))
    (model : TSDBModel) (keys : Keys) (start : Nat) (end_date : Option Nat)
    (rollup : Option Nat) (eid : Nat) (name : String) (agg : String)
    (gm gt : Bool) (req : SnubaRequest)
    (henv : envR eid = some name)
    (hb : build_request envR projIss model keys start end_date rollup (some eid)
        agg gm gt = .ok (some req)) :
    ("environment", "=", vstr name) ∈ req.conditions := by
  simp only [build_request, get_environment_name, henv] at hb
  split at hb
  · cases hb
  · next mc heq0 =>
    split at hb
    · cases hb
    · next top second heq =>
      split at hb
      · cases hb
      · next pids heq3 =>
        split at hb
        · cases hb
        · next ed heq4 =>
          injection hb with hb2
          injection hb2 with hb3
          subst hb3
          simp

/-- Witness: environment id 7 → name `"production"` → the equality
condition appears in the concrete built request. -/
theorem environment_condition_added_witness :
    ("environment", "=", vstr "production") ∈ req_env_example.conditions :=
  environment_condition_added env7 issues_empty .project (Keys.list [vint 1])
    0 (some 10) none 7 "production" "count" true false req_env_example rfl rfl

/-- Length of the scored list equals the length of the ranked input. -/
theorem topk_scores_length (vs : List Val) : (topk_scores vs).length = vs.length := by
  simp [topk_scores]

/-- The scored list keeps the backend's rank order: position `i` (0-based,
rank `i+1`) holds the rank-`i+1` value with score `k - i` (i.e. rank `r`
scores `k - r + 1`). -/
theorem topk_scores_get (vs : List Val) (i : Nat)
    (hi : i < (topk_scores vs).length) (h : i < vs.length) :
    (topk_scores vs).get ⟨i, hi⟩ = (vs.get ⟨i, h⟩, vs.length - i) := by
  simp only [topk_scores, List.get_eq_getElem, List.getElem_reverse,
    List.getElem_map, List.getElem_enum, List.length_map, List.enum_length,
    List.length_reverse]
  simp only [← List.get_eq_getElem, Prod.mk.injEq]
  constructor
  · congr 1
    omega
  · omega

/-- The scored list is ordered strictly descending by score. -/
theorem topk_scores_sorted (vs : List Val) :
    List.Pairwise (fun a b : Val × Nat => b.2 < a.2) (topk_scores vs) := by
  rw [List.pairwise_iff_get]
  intro i j hij
  have hi2 : (i : Nat) < vs.length := by
    have := topk_scores_length vs
    omega
  have hj2 : (j : Nat) < vs.length := by
    have := topk_scores_length vs
    omega
  rw [show (topk_scores vs).get i = (topk_scores vs).get ⟨i.1, i.2⟩ from rfl,
      show (topk_scores vs).get j = (topk_scores vs).get ⟨j.1, j.2⟩ from rfl,
      topk_scores_get vs i.1 i.2 hi2, topk_scores_get vs j.1 j.2 hj2]
  simp only
  omega

/-- C2 (counterexample): for the backend returning `["b", "a"]` (rank 1 =
`"b"`) with limit 2, the claim says the per-group result is
`[("a", 1.0), ("b", 2.0)]` (ascending by score); the code produces
`[("b", 2.0), ("a", 1.0)]` — scores embedded as the exact naturals `2`
and `1`. -/
theorem most_frequent_order_counterexample :
    get_most_frequent env_empty issues_empty parse_zero
        (backend_one (vlist [vstr "b", vstr "a"])) .users_affected_by_project
        (Keys.list [vint 1]) 0 (some 10) none none 2 =
      .ok [(vint 1, [(vstr "b", 2), (vstr "a", 1)])]
  ∧ get_most_frequent env_empty issues_empty parse_zero
        (backend_one (vlist [vstr "b", vstr "a"])) .users_affected_by_project
        (Keys.list [vint 1]) 0 (some 10) none none 2 ≠
      .ok [(vint 1, [(vstr "a", 1), (vstr "b", 2)])] :=
  ⟨rfl, by decide⟩

/-- C2 (amended): if the backend returns K ranked values `v_1..v_k`
(rank 1 = most frequent), `get_most_frequent` scores `v_i` with
`k - i + 1` (so `v_1` gets `k` and `v_k` gets `1`), and returns the
per-group list ordered descending by score (most-frequent first), not
ascending as claimed. -/
theorem most_frequent_scoring (vs : List Val) :
    get_most_frequent env_empty issues_empty parse_zero (backend_one (vlist vs))
        .users_affected_by_project (Keys.list [vint 1]) 0 (some 10) none none 2
      = .ok [(vint 1, topk_scores vs)]
  ∧ (topk_scores vs).length = vs.length
  ∧ (∀ (i : Nat) (hi : i < (topk_scores vs).length) (h : i < vs.length),
      (topk_scores vs).get ⟨i, hi⟩ = (vs.get ⟨i, h⟩, vs.length - i))
  ∧ List.Pairwise (fun a b : Val × Nat => b.2 < a.2) (topk_scores vs) :=
  ⟨rfl, topk_scores_length vs, fun i hi h => topk_scores_get vs i hi h,
   topk_scores_sorted vs⟩

/-- Witness: the scoring theorem applied to the backend list
`["b", "a"]`, reading off rank 1's entry. -/
theorem most_frequent_scoring_witness :
    get_most_frequent env_empty issues_empty parse_zero
        (backend_one (vlist [vstr "b", vstr "a"])) .users_affected_by_project
        (Keys.list [vint 1]) 0 (some 10) none none 2
      = .ok [(vint 1, topk_scores [vstr "b", vstr "a"])]
  ∧ (topk_scores [vstr "b", vstr "a"]).get ⟨0, by decide⟩ =
      ([vstr "b", vstr "a"].get ⟨0, by decide⟩, 2 - 0) :=
  ⟨(most_frequent_scoring [vstr "b", vstr "a"]).1,
   (most_frequent_scoring [vstr "b", vstr "a"]).2.2.1 0 (by decide) (by decide)⟩

/-- For a supported model and an absent end date, request building always
fails: every earlier stage either raises its own error or reaches the
payload assembly, where `end.isoformat()` on `None` raises
`AttributeError`. -/
theorem build_request_absent_end (envR : Nat → Option String)
    (projIss : List Val → List (Val × List String)) (model : TSDBModel)
    (keys : Keys) (start : Nat) (rollup : Option Nat) (eid : Option Nat)
    (agg : String) (gm gt : Bool)
    (hm : (model_columns model).isSome) :
    ∃ e, build_request envR projIss model keys start none rollup eid agg gm gt =
      .error e := by
  rcases hmc : model_columns model with _ | mc
  · rw [hmc] at hm
    cases hm
  · obtain ⟨g, ma⟩ := mc
    simp only [build_request, hmc]
    split
    · next e heq => exact ⟨e, rfl⟩
    · next top second heq =>
      split
      · next e heq2 => exact ⟨e, rfl⟩
      · next conds heq2 =>
        split
        · next e heq3 => exact ⟨e, rfl⟩
        · next pids heq3 => exact ⟨.attributeError, rfl⟩

/-- `get_data` propagates the absent-end failure. -/
theorem get_data_absent_end (envR : Nat → Option String)
    (projIss : List Val → List (Val × List String)) (parse : String → Int)
    (backend : SnubaRequest → SnubaResponse) (model : TSDBModel)
    (keys : Keys) (start : Nat) (rollup : Option Nat) (eid : Option Nat)
    (agg : String) (gm gt : Bool)
    (hm : (model_columns model).isSome) :
    ∃ e, get_data envR projIss parse backend model keys start none rollup eid
      agg gm gt = .error e := by
  obtain ⟨e, he⟩ := build_request_absent_end envR projIss model keys start
    rollup eid agg gm gt hm
  exact ⟨e, by simp only [get_data, he]⟩

/-- C10 (amended): for every call on a supported model with an absent end
date, every public operation fails rather than returning a result — a
present end is an effective precondition of the public surface for
supported models.  (For an unsupported model the operation never reaches
`end.isoformat()`; see the counterexample.) -/
theorem absent_end_fails (envR : Nat → Option String)
    (projIss : List Val → List (Val × List String)) (parse : String → Int)
    (backend : SnubaRequest → SnubaResponse) (model : TSDBModel) (keys : Keys)
    (start : Nat) (rollup : Option Nat) (eid : Option Nat) (limit : Nat)
    (hm : (model_columns model).isSome) :
    (∃ e, get_range envR projIss parse backend model keys start none rollup eid =
      .error e)
  ∧ (∃ e, get_distinct_counts_series envR projIss parse backend model keys start
      none rollup eid = .error e)
  ∧ (∃ e, get_distinct_counts_totals envR projIss parse backend model keys start
      none rollup eid = .error e)
  ∧ (∃ e, get_distinct_counts_union envR projIss parse backend model keys start
      none rollup eid = .error e)
  ∧ (∃ e, get_most_frequent envR projIss parse backend model keys start none
      rollup eid limit = .error e)
  ∧ (∃ e, get_most_frequent_series envR projIss parse backend model keys start
      none rollup eid limit = .error e)
  ∧ (∃ e, get_frequency_series envR projIss parse backend model keys start none
      rollup eid = .error e)
  ∧ (∃ e, get_frequency_totals envR projIss parse backend model keys start none
      rollup eid = .error e) := by
  refine ⟨?_, ?_, ?_, ?_, ?_, ?_, ?_, ?_⟩
  · obtain ⟨e, he⟩ := get_data_absent_end envR projIss parse backend model keys
      start rollup eid "count" true true hm
    exact ⟨e, by simp only [get_range, he]⟩
  · obtain ⟨e, he⟩ := get_data_absent_end envR projIss parse backend model keys
      start rollup eid "uniq" true true hm
    exact ⟨e, by simp only [get_distinct_counts_series, he]⟩
  · obtain ⟨e, he⟩ := get_data_absent_end envR projIss parse backend model keys
      start rollup eid "uniq" true false hm
    exact ⟨e, by simp only [get_distinct_counts_totals, he]⟩
  · obtain ⟨e, he⟩ := get_data_absent_end envR projIss parse backend model keys
      start rollup eid "uniq" false false hm
    exact ⟨e, by simp only [get_distinct_counts_union, he]⟩
  · obtain ⟨e, he⟩ := get_data_absent_end envR projIss parse backend model keys
      start rollup eid ("topK(" ++ toString limit ++ ")") true false hm
    exact ⟨e, by simp only [get_most_frequent, he]⟩
  · obtain ⟨e, he⟩ := get_data_absent_end envR projIss parse backend model keys
      start rollup eid ("topK(" ++ toString limit ++ ")") true true hm
    exact ⟨e, by simp only [get_most_frequent_series, he]⟩
  · obtain ⟨e, he⟩ := get_data_absent_end envR projIss parse backend model keys
      start rollup eid "count" true true hm
    exact ⟨e, by simp only [get_frequency_series, he]⟩
  · obtain ⟨e, he⟩ := get_data_absent_end envR projIss parse backend model keys
      start rollup eid "count" true false hm
    exact ⟨e, by simp only [get_frequency_totals, he]⟩

/-- C10 (counterexample): the claim quantifies over *every* call with an
absent end, but an unsupported model short-circuits before
`end.isoformat()`: `get_distinct_counts_totals` then returns the absent
result `None` without failing. -/
theorem absent_end_unsupported_model_counterexample :
    get_distinct_counts_totals env_empty issues_empty parse_zero backend_empty
      .internal (Keys.list [vint 1]) 0 none none none = .ok none := rfl

/-- Witness: the absent-end theorem at a concrete supported model. -/
theorem absent_end_fails_witness :
    (model_columns TSDBModel.project).isSome = true
  ∧ ((∃ e, get_range env_empty issues_empty parse_zero backend_empty .project
        (Keys.list [vint 1]) 0 none none none = .error e)
    ∧ (∃ e, get_distinct_counts_series env_empty issues_empty parse_zero
        backend_empty .project (Keys.list [vint 1]) 0 none none none = .error e)
    ∧ (∃ e, get_distinct_counts_totals env_empty issues_empty parse_zero
        backend_empty .project (Keys.list [vint 1]) 0 none none none = .error e)
    ∧ (∃ e, get_distinct_counts_union env_empty issues_empty parse_zero
        backend_empty .project (Keys.list [vint 1]) 0 none none none = .error e)
    ∧ (∃ e, get_most_frequent env_empty issues_empty parse_zero backend_empty
        .project (Keys.list [vint 1]) 0 none none none 10 = .error e)
    ∧ (∃ e, get_most_frequent_series env_empty issues_empty parse_zero
        backend_empty .project (Keys.list [vint 1]) 0 none none none 10 =
        .error e)
    ∧ (∃ e, get_frequency_series env_empty issues_empty parse_zero backend_empty
        .project (Keys.list [vint 1]) 0 none none none = .error e)
    ∧ (∃ e, get_frequency_totals env_empty issues_empty parse_zero backend_empty
        .project (Keys.list [vint 1]) 0 none none none = .error e)) :=
  ⟨by decide,
   absent_end_fails env_empty issues_empty parse_zero backend_empty .project
     (Keys.list [vint 1]) 0 none none 10 (by decide)⟩
